import Mathlib

/-!
Verification of the resilience toolkit of the `lang` Go package
(`lang.go`: `Retry`, `ErrTimeout`, `RunWithTimeout`; `recover.go`: `Go`,
`RecoverWithErr`, `DefaultIfPanic`) as a shallow embedding in Lean 4.

Modelling conventions, used throughout:
* Go `error` values are `Option GoErr` (`none` = nil error); `GoErr`
  records the message text and, for `fmt.Errorf` with a `%w` verb applied
  to a non-nil error, the wrapped inner error.
* A fallible operation `func() (T, error)` whose behaviour may differ
  between invocations (a closure over mutable state) is a function
  `Nat → Except GoErr T` from the invocation index to that invocation's
  outcome: `.ok v` is `(v, nil)`, `.error e` is `(zero, e)` with `e` non-nil.
* Go's zero value of `T` is passed explicitly as a `zero : T` argument.
* `time.Time` / `time.Duration` are `Int` nanosecond counts; the unset
  (zero) `time.Time` of the supervisor state is `none : Option Int`.
* A panic payload is `PanicPayload`; `recover()` yields `Option PanicPayload`.
-/

namespace Lang

/-- A non-nil Go `error`: either a leaf error (`errors.New`, or `fmt.Errorf`
whose `%w` operand was not a non-nil error) or a wrapping error built by
`fmt.Errorf` with `%w`; `msg` is always the full formatted text. -/
inductive GoErr where
  | simple (msg : String)
  | wrap (msg : String) (inner : GoErr)
  deriving DecidableEq, Repr

/-- `Error()` — the message text of an error. -/
def GoErr.text : GoErr → String
  | .simple m => m
  | .wrap m _ => m

/-- `errors.Unwrap` — `some` only for errors built by `fmt.Errorf` with a
`%w` verb applied to a non-nil error. -/
def GoErr.unwrapErr : GoErr → Option GoErr
  | .simple _ => none
  | .wrap _ inner => some inner

/-- Whether `sub` occurs starting at the head of `l` (chars compared one by one). -/
def charsStartWith : List Char → List Char → Bool
  | [], _ => true
  | _ :: _, [] => false
  | a :: as, b :: bs => a == b && charsStartWith as bs

/-- Whether `sub` occurs contiguously anywhere inside `l`. -/
def charsHaveSub (sub : List Char) : List Char → Bool
  | [] => charsStartWith sub []
  | a :: rest => charsStartWith sub (a :: rest) || charsHaveSub sub rest

/-- Substring containment on strings, used to state "the error text
contains …" properties. -/
def strContains (sub s : String) : Bool :=
  charsHaveSub sub.data s.data

/-! ### `Retry` (lang.go:496-507)

```go
func Retry[T any](maxAttempts int, f func() (T, error)) (T, error) {
    var lastErr error
    for i := 0; i < maxAttempts; i++ {
        result, err := f()
        if err == nil {
            return result, nil
        }
        lastErr = err
    }
    var zero T
    return zero, fmt.Errorf("failed after %d attempts: %w", maxAttempts, lastErr)
}
```
-/

/-- `err == nil` check of the loop body: does this invocation outcome carry
a nil error? -/
def succeeds {T : Type} : Except GoErr T → Bool
  | .ok _ => true
  | .error _ => false

/-- The exhaustion error
`fmt.Errorf("failed after %d attempts: %w", maxAttempts, lastErr)`.
When `lastErr` is nil (`none`) the `%w` verb has no error operand: `fmt`
renders it as `%!w(<nil>)` and the result wraps nothing. -/
def retryErr (maxAttempts : Int) : Option GoErr → GoErr
  | some e => .wrap ("failed after " ++ toString maxAttempts ++ " attempts: " ++ e.text) e
  | none => .simple ("failed after " ++ toString maxAttempts ++ " attempts: %!w(<nil>)")

/-- The `for` loop of `Retry`: `i` is the index of the next invocation of
`f`, `remaining` the number of loop iterations still to run (`maxAttempts - i`),
`lastErr` the value of the `lastErr` variable. Returns (`some` result on an
early `return result, nil` / `none` if the loop ran out, the final `lastErr`,
the number of invocations of `f` performed). -/
def retryFrom {T : Type} (f : Nat → Except GoErr T) :
    Nat → Nat → Option GoErr → Option T × Option GoErr × Nat
  | _, 0, lastErr => (none, lastErr, 0)
  | i, r + 1, _ =>
    match f i with
    | .ok v => (some v, none, 1)
    | .error e =>
      let (res, le, c) := retryFrom f (i + 1) r (some e)
      (res, le, c + 1)

/-- `Retry` itself. `maxAttempts` is a Go `int`; the loop
`for i := 0; i < maxAttempts` runs `max 0 maxAttempts = maxAttempts.toNat`
times. Returns the `(T, error)` pair plus the number of invocations of `f`. -/
def Retry {T : Type} (zero : T) (maxAttempts : Int) (f : Nat → Except GoErr T) :
    T × Option GoErr × Nat :=
  match retryFrom f 0 maxAttempts.toNat none with
  | (some v, _, c) => (v, none, c)
  | (none, lastErr, c) => (zero, some (retryErr maxAttempts lastErr), c)

example : Retry (0 : Nat) 3 (fun j => if j < 2 then .error (.simple "boom") else .ok 7)
    = (7, none, 3) := by decide

example : Retry (0 : Nat) 3 (fun _ => .error (.simple "boom"))
    = (0, some (.wrap "failed after 3 attempts: boom" (.simple "boom")), 3) := by decide

example : Retry (0 : Nat) (-1) (fun _ => .error (.simple "boom"))
    = (0, some (.simple "failed after -1 attempts: %!w(<nil>)"), 0) := by decide

/-! ### `ErrTimeout` and `RunWithTimeout` (lang.go:509-537)

```go
var ErrTimeout = errors.New("operation timed out")

func RunWithTimeout[T any](timeout time.Duration, f func() (T, error)) (T, error) {
    ... go func() { result, err = f(); close(done) }()
    select {
    case <-done:
        return result, err
    case <-time.After(timeout):
        var zero T
        return zero, ErrTimeout
    }
}
```

The spawned goroutine always runs `f` to completion — nothing cancels it.
The race is modelled by the time `fTime` that `f` takes against `timeout`:
`done` is ready first exactly when `fTime < timeout` (at `fTime = timeout`
both channels are ready and Go's `select` picks randomly; the model
resolves that tie to the deadline arm, and no theorem below relies on the
tie case). -/

/-- `ErrTimeout = errors.New("operation timed out")`. -/
def errTimeout : GoErr := .simple "operation timed out"

/-- Which `select` arm fires. -/
inductive TimeoutBranch where
  | opDone
  | deadlineFired
  deriving DecidableEq, Repr

/-- The `select`: the `done` channel is ready first iff `f` finished
strictly before the deadline. -/
def selectBranch (timeout fTime : Int) : TimeoutBranch :=
  if fTime < timeout then .opDone else .deadlineFired

/-- `RunWithTimeout`, as a function of the deadline `timeout`, the time
`fTime` the operation takes, and the operation's own outcome `fRes`
(its `(result, err)` pair). Returns the caller-visible `(T, error)` pair,
the arm of the `select` that fired, and whether the spawned goroutine runs
`f` to completion (always `true`: the code has no cancellation primitive). -/
def RunWithTimeout {T : Type} (zero : T) (timeout fTime : Int) (fRes : T × Option GoErr) :
    (T × Option GoErr) × TimeoutBranch × Bool :=
  match selectBranch timeout fTime with
  | .opDone => (fRes, .opDone, true)
  | .deadlineFired => ((zero, some errTimeout), .deadlineFired, true)

example : RunWithTimeout (0 : Nat) 100 10 (5, none) = ((5, none), .opDone, true) := by decide
example : RunWithTimeout (0 : Nat) 50 100 (5, none)
    = ((0, some errTimeout), .deadlineFired, true) := by decide

/-! ### Supervisor backoff (`Go`, recover.go:17-63)

The restart path of `Go`'s deferred handler, inside the critical section:

```go
restartLock.Lock()
now := time.Now()
elapsed := now.Sub(lastRestart)
var delay time.Duration
if elapsed < time.Minute && !lastRestart.IsZero() {
    minInterval := time.Minute / time.Duration(maxRestartsPerMinute)
    if elapsed < minInterval {
        delay = minInterval - elapsed
    }
}
lastRestart = now
restartLock.Unlock()
if delay > 0 { time.Sleep(delay) }
go foo()
```

Times are `Int` nanoseconds; the unset (zero) `time.Time` is `none`. -/

/-- `time.Minute` in nanoseconds. -/
def minuteNs : Int := 60 * 1000000000

/-- `time.Second` in nanoseconds. -/
def secondNs : Int := 1000000000

/-- `maxRestartsPerMinute := 60` (recover.go:23). -/
def maxRestartsPerMinute : Int := 60

/-- The `delay` computed by the handler's critical section from the
`lastRestart` state and the current time `now`. -/
def computeDelay (lastRestart : Option Int) (now : Int) : Int :=
  match lastRestart with
  | none => 0
  | some t =>
    let elapsed := now - t
    if elapsed < minuteNs then
      let minInterval := minuteNs / maxRestartsPerMinute
      if elapsed < minInterval then minInterval - elapsed else 0
    else 0

/-- The whole critical section as a state transformer: it yields the delay
to sleep and the updated `lastRestart` state (always set to `now` before the
lock is released, hence before the sleep). -/
def restartStep (lastRestart : Option Int) (now : Int) : Int × Option Int :=
  (computeDelay lastRestart now, some now)

/-- Modelled from the spec's words, for comparison with `computeDelay`:
"If `lastRestartTime` is unset, or `elapsed ≥ 1 minute`, no delay is
needed. Otherwise compute `minInterval = 1 minute / maxRestartsPerMinute`
(maxRestartsPerMinute = 60, so minInterval = 1 second); if
`elapsed < minInterval`, delay for `minInterval − elapsed`." -/
def specDelay (lastRestart : Option Int) (now : Int) : Int :=
  match lastRestart with
  | none => 0
  | some t =>
    let elapsed := now - t
    if minuteNs ≤ elapsed then 0
    else if elapsed < secondNs then secondNs - elapsed else 0

/-! ### Supervisor goroutine structure (`Go`, recover.go:28-63)

`Go` spawns one goroutine running `foo`; `foo` runs the task `fn()` under a
deferred handler. On a panic the handler logs, computes and sleeps the
delay, and spawns a fresh goroutine running `foo`; on normal return of
`fn()` nothing is relaunched. A goroutine is therefore in one of two
relevant phases: executing the task (`fn()` on its stack), or in the
post-exit handler (log + delay + sleep, before its single `go foo()`).
After the handler's `go foo()` the old goroutine merely unwinds and never
touches the task again, so that residue is identified with being done.

A state is the pair (number of goroutines executing the task, number of
goroutines in the post-exit handler); `SupStep` is the interleaving
semantics of one supervisor. -/

/-- One scheduler step of the supervised-task system. -/
inductive SupStep : Nat × Nat → Nat × Nat → Prop where
  /-- `fn()` returns normally: the deferred handler sees `recover() = nil`
  and the goroutine finishes with no relaunch. -/
  | normalExit (r h : Nat) : SupStep (r + 1, h) (r, h)
  /-- `fn()` panics: the goroutine stops executing the task and enters the
  deferred handler. -/
  | fault (r h : Nat) : SupStep (r + 1, h) (r, h + 1)
  /-- A handler finishes its log/delay/sleep and performs its single
  `go foo()`, launching a fresh execution of the task. -/
  | relaunch (r h : Nat) : SupStep (r, h + 1) (r + 1, h)

/-- The state right after `Go` launched the first execution (recover.go:62). -/
def supInit : Nat × Nat := (1, 0)

/-! ### Panics, `RecoverWithErr` (recover.go:75-83), `DefaultIfPanic` (recover.go:123-134) -/

/-- An opaque panic payload: the toolkit never inspects it structurally,
only formats it with `fmt`'s `%v` verb. -/
inductive PanicPayload where
  | ofString (s : String)
  | ofInt (n : Int)
  | ofErr (e : GoErr)
  deriving DecidableEq, Repr

/-- `fmt.Sprintf("%v", p)`: strings print as themselves, integers in
decimal, errors by their `Error()` text. -/
def PanicPayload.format : PanicPayload → String
  | .ofString s => s
  | .ofInt n => toString n
  | .ofErr e => e.text

/-- `RecoverWithErr` (recover.go:75-83), run as a deferred exit hook.

```go
func RecoverWithErr(outerError *error) bool {
    if panicErr := recover(); panicErr != nil {
        if outerError != nil {
            *outerError = fmt.Errorf("%v", panicErr)
        }
        return true
    }
    return false
}
```

`outerError` is the pointer: `none` is a nil pointer, `some c` points at a
cell holding the error value `c`. `panicked` is what `recover()` yields at
this exit: `some p` when a panic with payload `p` is unwinding the
function, `none` on a normal exit. Returns the boolean result and the
cell's content after the hook ran. -/
def RecoverWithErr (outerError : Option (Option GoErr)) (panicked : Option PanicPayload) :
    Bool × Option (Option GoErr) :=
  match panicked with
  | some p =>
    (true,
      match outerError with
      | some _ => some (some (.simple p.format))
      | none => none)
  | none => (false, outerError)

/-- `DefaultIfPanic` (recover.go:123-134). The operation is `none` when the
`f == nil` guard fires; otherwise invoking it yields `.ok v` on a normal
return `v` and `.error p` when it panics with payload `p`, which the
deferred `recover` turns into the default.

```go
func DefaultIfPanic[T any](defaultValue T, f func() T) (result T) {
    if f == nil { return defaultValue }
    defer func() { if r := recover(); r != nil { result = defaultValue } }()
    return f()
}
``` -/
def DefaultIfPanic {T : Type} (defaultValue : T) (f : Option (Unit → Except PanicPayload T)) : T :=
  match f with
  | none => defaultValue
  | some g =>
    match g () with
    | .ok v => v
    | .error _ => defaultValue

/-! ### Nil-operation behaviour across the toolkit

`Retry` and `RunWithTimeout` invoke their operation without a nil check:
calling a nil function value panics with a nil-dereference runtime error
(in `RunWithTimeout`'s case inside the spawned goroutine, where nothing
recovers it). `Go` (recover.go:17-20) and `DefaultIfPanic`
(recover.go:123-126) instead test `f == nil` first. `ExecOutcome` makes the
possible runtime fault of a call explicit. -/

/-- Result of running a piece of code that may hit an unrecovered runtime
fault. -/
inductive ExecOutcome (α : Type) where
  | ok (v : α)
  | panicked (msg : String)
  deriving DecidableEq, Repr

/-- The message of the run-time panic raised by calling a nil function value. -/
def nilCallMsg : String := "runtime error: invalid memory address or nil pointer dereference"

/-- Invoking a possibly-nil fallible operation: a nil function value
panics at the call site. -/
def callFallible {T : Type} (f : Option (Nat → Except GoErr T)) (i : Nat) :
    ExecOutcome (Except GoErr T) :=
  match f with
  | none => .panicked nilCallMsg
  | some g => .ok (g i)

/-- The `Retry` loop over a possibly-nil operation, each call going through
`callFallible` exactly as `retryFrom` calls `f` (a fault propagates out of
the loop unrecovered). -/
def retryFromNilable {T : Type} (f : Option (Nat → Except GoErr T)) :
    Nat → Nat → Option GoErr → ExecOutcome (Option T × Option GoErr × Nat)
  | _, 0, lastErr => .ok (none, lastErr, 0)
  | i, r + 1, _ =>
    match callFallible f i with
    | .panicked m => .panicked m
    | .ok (.ok v) => .ok (some v, none, 1)
    | .ok (.error e) =>
      match retryFromNilable f (i + 1) r (some e) with
      | .panicked m => .panicked m
      | .ok (res, le, c) => .ok (res, le, c + 1)

/-- `Retry` over a possibly-nil operation: no nil check anywhere
(lang.go:496-507); the first loop iteration's call faults when `f` is nil. -/
def RetryNilable {T : Type} (zero : T) (maxAttempts : Int) (f : Option (Nat → Except GoErr T)) :
    ExecOutcome (T × Option GoErr × Nat) :=
  match retryFromNilable f 0 maxAttempts.toNat none with
  | .panicked m => .panicked m
  | .ok (some v, _, c) => .ok (v, none, c)
  | .ok (none, lastErr, c) => .ok (zero, some (retryErr maxAttempts lastErr), c)

/-- `RunWithTimeout` over a possibly-nil operation: the spawned goroutine
executes `result, err = f()` with no nil check (lang.go:524-527); a nil `f`
faults there, unrecovered. For a non-nil operation the behaviour is exactly
`RunWithTimeout` on that operation's duration and outcome. -/
def RunWithTimeoutNilable {T : Type} (zero : T) (timeout : Int)
    (f : Option (Int × (T × Option GoErr))) :
    ExecOutcome ((T × Option GoErr) × TimeoutBranch × Bool) :=
  match f with
  | none => .panicked nilCallMsg
  | some (fTime, fRes) => .ok (RunWithTimeout zero timeout fTime fRes)

/-- The launch decision of `Go` (recover.go:17-20): `if f == nil { return }`
makes a nil task a silent no-op; otherwise one goroutine is spawned.
Returns whether a task execution was launched, and never faults. -/
def GoLaunch (f : Option (Unit → Unit)) : ExecOutcome Bool :=
  match f with
  | none => .ok false
  | some _ => .ok true

/-! ## Helper lemmas -/

theorem charsStartWith_self_append (sub r : List Char) :
    charsStartWith sub (sub ++ r) = true := by
  induction sub with
  | nil => rfl
  | cons a as ih => simp [charsStartWith, ih]

theorem charsHaveSub_of_startWith (sub l : List Char) (h : charsStartWith sub l = true) :
    charsHaveSub sub l = true := by
  cases l with
  | nil => simpa [charsHaveSub] using h
  | cons a rest => simp [charsHaveSub, h]

theorem charsHaveSub_append_left (sub t : List Char) (h : charsHaveSub sub t = true)
    (a : List Char) : charsHaveSub sub (a ++ t) = true := by
  induction a with
  | nil => simpa using h
  | cons x xs ih => simp [charsHaveSub, ih]

theorem strContains_of_data (sub s : String) (a c : List Char)
    (h : s.data = a ++ (sub.data ++ c)) : strContains sub s = true := by
  unfold strContains
  rw [h]
  exact charsHaveSub_append_left _ _
    (charsHaveSub_of_startWith _ _ (charsStartWith_self_append sub.data c)) a

/-- The loop performs at most `remaining` invocations. -/
theorem retryFrom_calls_le {T : Type} (f : Nat → Except GoErr T) (i r : Nat)
    (le : Option GoErr) : (retryFrom f i r le).2.2 ≤ r := by
  induction r generalizing i le with
  | zero => simp [retryFrom]
  | succ r ih =>
    simp only [retryFrom]
    cases f i with
    | ok v => simp
    | error e =>
      simpa using ih (i + 1) (some e)

/-- If the invocations at indices `i, …, i+m-1` all fail and the one at
`i+m` succeeds with `v`, and the loop has more than `m` iterations left,
it stops after exactly `m+1` invocations with result `v`. -/
theorem retryFrom_first_success {T : Type} (f : Nat → Except GoErr T) (v : T) :
    ∀ (m i r : Nat) (le : Option GoErr), m < r →
      (∀ j, j < m → succeeds (f (i + j)) = false) → f (i + m) = .ok v →
      retryFrom f i r le = (some v, none, m + 1) := by
  intro m
  induction m with
  | zero =>
    intro i r le hr _ hok
    match r, hr with
    | r' + 1, _ =>
      simp only [retryFrom]
      rw [show i + 0 = i from rfl] at hok
      rw [hok]
  | succ m ih =>
    intro i r le hr hfail hok
    match r, hr with
    | r' + 1, hr =>
      have h0 : succeeds (f i) = false := by
        have := hfail 0 (Nat.succ_pos m)
        simpa using this
      simp only [retryFrom]
      cases hfi : f i with
      | ok w => rw [hfi] at h0; simp [succeeds] at h0
      | error e =>
        have hrec : retryFrom f (i + 1) r' (some e) = (some v, none, m + 1) := by
          apply ih (i + 1) r' (some e) (Nat.lt_of_succ_lt_succ hr)
          · intro j hj
            have := hfail (j + 1) (Nat.succ_lt_succ hj)
            simpa [Nat.add_assoc, Nat.add_comm 1 j] using this
          · simpa [Nat.add_assoc, Nat.add_comm 1 m] using hok
        simp [hrec]

/-- If all `r` remaining invocations fail, the loop exhausts them and ends
with `lastErr` holding the error of the final invocation (index `i+r-1`). -/
theorem retryFrom_all_fail {T : Type} (f : Nat → Except GoErr T) :
    ∀ (r i : Nat) (le : Option GoErr) (e : GoErr), (∀ j, j < r → succeeds (f (i + j)) = false) →
      f (i + r - 1) = .error e → 0 < r →
      retryFrom f i r le = (none, some e, r) := by
  intro r
  induction r with
  | zero => intro _ _ _ _ _ h0; exact absurd h0 (by simp)
  | succ r ih =>
    intro i le e hfail hlast _
    have h0 : succeeds (f i) = false := by simpa using hfail 0 (Nat.succ_pos r)
    simp only [retryFrom]
    cases hfi : f i with
    | ok w => rw [hfi] at h0; simp [succeeds] at h0
    | error e0 =>
      cases r with
      | zero =>
        have : f i = .error e := by simpa using hlast
        rw [hfi] at this
        cases this
        simp [retryFrom]
      | succ r' =>
        have hrec : retryFrom f (i + 1) (r' + 1) (some e0) = (none, some e, r' + 1) := by
          apply ih (i + 1) (some e0) e
          · intro j hj
            have := hfail (j + 1) (Nat.succ_lt_succ hj)
            simpa [Nat.add_assoc, Nat.add_comm 1 j] using this
          · have : i + (r' + 1 + 1) - 1 = i + 1 + (r' + 1) - 1 := by omega
            rw [this] at hlast
            exact hlast
          · exact Nat.succ_pos r'
        simp [hrec]

/-- The text of the exhaustion error for a non-nil last failure, spelled
out. -/
theorem retryErr_text (maxAttempts : Int) (e : GoErr) :
    (retryErr maxAttempts (some e)).text
      = "failed after " ++ toString maxAttempts ++ " attempts: " ++ e.text := rfl

theorem retryErr_contains_count (maxAttempts : Int) (e : GoErr) :
    strContains (toString maxAttempts) (retryErr maxAttempts (some e)).text = true := by
  rw [retryErr_text]
  apply strContains_of_data _ _ ("failed after ".data)
    ((" attempts: ").data ++ e.text.data)
  simp [String.data_append]

theorem retryErr_contains_last (maxAttempts : Int) (e : GoErr) :
    strContains e.text (retryErr maxAttempts (some e)).text = true := by
  rw [retryErr_text]
  apply strContains_of_data _ _
    (("failed after ".data ++ (toString maxAttempts).data) ++ (" attempts: ").data) []
  simp [String.data_append]

theorem retryErr_none_contains_count (n : Int) :
    strContains (toString n) (retryErr n none).text = true := by
  apply strContains_of_data _ _ ("failed after ".data) (" attempts: %!w(<nil>)".data)
  simp [retryErr, GoErr.text, String.data_append]

/-! ## Claim theorems -/

/-- C1: for every `maxAttempts > 0` and every fallible operation `f`,
`Retry(maxAttempts, f)` invokes `f` sequentially at most `maxAttempts`
times; if the `k`-th invocation (`k ≤ maxAttempts`) is the first to return
no error, `Retry` makes exactly `k` invocations and returns that
invocation's result with a nil error. -/
theorem retry_first_success_spec {T : Type} (zero : T) (f : Nat → Except GoErr T)
    (maxAttempts : Int) (k : Nat) (v : T)
    (hpos : 0 < maxAttempts) (hk : 1 ≤ k) (hkle : (k : Int) ≤ maxAttempts)
    (hfail : ∀ j, j < k - 1 → succeeds (f j) = false)
    (hok : f (k - 1) = .ok v) :
    Retry zero maxAttempts f = (v, none, k) ∧
      ∀ (g : Nat → Except GoErr T), ((Retry zero maxAttempts g).2.2 : Int) ≤ maxAttempts := by
  constructor
  · unfold Retry
    have hr : retryFrom f 0 maxAttempts.toNat none = (some v, none, (k - 1) + 1) := by
      apply retryFrom_first_success f v (k - 1) 0 maxAttempts.toNat none
      · omega
      · intro j hj
        simpa using hfail j hj
      · simpa using hok
    rw [show (k - 1) + 1 = k by omega] at hr
    rw [hr]
  · intro g
    unfold Retry
    have hle := retryFrom_calls_le g 0 maxAttempts.toNat none
    rcases hmt : retryFrom g 0 maxAttempts.toNat none with ⟨res, le, c⟩
    rw [hmt] at hle
    simp at hle
    cases res <;> simp <;> omega

/-- A concrete operation that fails on its first two invocations and
succeeds on the third. -/
def opFailTwice : Nat → Except GoErr Nat :=
  fun j => if j < 2 then .error (.simple "dial tcp: connection refused") else .ok 7

theorem retry_first_success_spec_witness :
    Retry (0 : Nat) 3 opFailTwice = (7, none, 3) :=
  (retry_first_success_spec 0 opFailTwice 3 3 7 (by decide) (by decide) (by decide)
    (by decide) (by rfl)).1

/-- C5: for every `maxAttempts > 0` and operation `f` that fails on all
`maxAttempts` attempts, `Retry` returns the zero value of `T` together with
a non-nil error whose text contains both the literal attempt count and the
message of the last underlying failure. -/
theorem retry_exhaustion_spec {T : Type} (zero : T) (f : Nat → Except GoErr T)
    (maxAttempts : Int) (elast : GoErr)
    (hpos : 0 < maxAttempts)
    (hfail : ∀ j, j < maxAttempts.toNat → succeeds (f j) = false)
    (hlast : f (maxAttempts.toNat - 1) = .error elast) :
    Retry zero maxAttempts f
        = (zero, some (retryErr maxAttempts (some elast)), maxAttempts.toNat) ∧
      strContains (toString maxAttempts) (retryErr maxAttempts (some elast)).text = true ∧
      strContains elast.text (retryErr maxAttempts (some elast)).text = true := by
  refine ⟨?_, retryErr_contains_count _ _, retryErr_contains_last _ _⟩
  unfold Retry
  have hr : retryFrom f 0 maxAttempts.toNat none = (none, some elast, maxAttempts.toNat) := by
    apply retryFrom_all_fail f maxAttempts.toNat 0 none elast
    · intro j hj
      simpa using hfail j hj
    · simpa using hlast
    · omega
  rw [hr]

/-- A concrete operation that fails on every invocation. -/
def opAlwaysFail : Nat → Except GoErr Nat :=
  fun _ => .error (.simple "boom")

theorem retry_exhaustion_spec_witness :
    Retry (0 : Nat) 3 opAlwaysFail
        = (0, some (retryErr 3 (some (.simple "boom"))), 3) ∧
      strContains (toString (3 : Int)) (retryErr 3 (some (.simple "boom"))).text = true ∧
      strContains (GoErr.simple "boom").text (retryErr 3 (some (.simple "boom"))).text = true :=
  retry_exhaustion_spec 0 opAlwaysFail 3 (.simple "boom") (by decide) (by decide) (by rfl)

/-- A concrete operation used for the non-positive `maxAttempts` cases;
never invoked there. -/
def opNeverCalled : Nat → Except GoErr Nat :=
  fun _ => .error (.simple "never invoked")

/-- C6 counterexample: at `maxAttempts = -1` the code performs zero
invocations and returns a non-nil error, but that error's text is
"failed after -1 attempts: %!w(<nil>)" — it reports the attempt count
`-1`, and nowhere reports zero attempts (no character `0` occurs at all). -/
theorem retry_nonpos_counterexample :
    Retry (0 : Nat) (-1) opNeverCalled
        = (0, some (.simple "failed after -1 attempts: %!w(<nil>)"), 0) ∧
      strContains "0" "failed after -1 attempts: %!w(<nil>)" = false := by
  constructor
  · decide
  · decide

/-- C6 (amended): for every `maxAttempts ≤ 0` and every operation `f`,
`Retry(maxAttempts, f)` invokes `f` zero times and returns the zero value
of `T` together with a non-nil error that reports the given (non-positive)
`maxAttempts` count — not necessarily zero — and whose `%w` operand is the
nil last error, rendered as `%!w(<nil>)` and wrapping nothing. -/
theorem retry_nonpos_spec {T : Type} (zero : T) (maxAttempts : Int)
    (f : Nat → Except GoErr T) (h : maxAttempts ≤ 0) :
    Retry zero maxAttempts f = (zero, some (retryErr maxAttempts none), 0) ∧
      strContains (toString maxAttempts) (retryErr maxAttempts none).text = true ∧
      (retryErr maxAttempts none).unwrapErr = none := by
  refine ⟨?_, retryErr_none_contains_count _, rfl⟩
  unfold Retry
  have h0 : maxAttempts.toNat = 0 := by omega
  rw [h0]
  rfl

theorem retry_nonpos_spec_witness :
    Retry (0 : Nat) (-2) opNeverCalled = (0, some (retryErr (-2) none), 0) ∧
      strContains (toString (-2 : Int)) (retryErr (-2) none).text = true ∧
      (retryErr (-2) none).unwrapErr = none :=
  retry_nonpos_spec 0 (-2) opNeverCalled (by decide)

/-- C2: for every deadline and operation, if the operation completes in
`fTime < timeout` the call returns the operation's own `(result, err)` pair
verbatim via the `done` arm — the timeout arm (the only producer of the
sentinel) does not fire; if the deadline elapses first (`timeout < fTime`)
the call returns the zero value of `T` and the sentinel timeout error
regardless of the operation's outcome `fRes`, and the operation's goroutine
is not cancelled: it runs to completion in the background (final `true`
component) in both cases. -/
theorem runWithTimeout_race_spec {T : Type} (zero : T) (timeout fTime : Int)
    (fRes : T × Option GoErr) :
    (fTime < timeout →
      RunWithTimeout zero timeout fTime fRes = (fRes, .opDone, true)) ∧
    (timeout < fTime →
      RunWithTimeout zero timeout fTime fRes = ((zero, some errTimeout), .deadlineFired, true)) := by
  constructor
  · intro h
    unfold RunWithTimeout selectBranch
    rw [if_pos h]
  · intro h
    unfold RunWithTimeout selectBranch
    rw [if_neg (by omega)]

theorem runWithTimeout_race_spec_witness :
    RunWithTimeout (0 : Nat) 100 10 (5, some (.simple "disk full"))
        = ((5, some (.simple "disk full")), .opDone, true) ∧
      RunWithTimeout (0 : Nat) 50 200 (5, none)
        = ((0, some errTimeout), .deadlineFired, true) :=
  ⟨(runWithTimeout_race_spec 0 100 10 (5, some (.simple "disk full"))).1 (by decide),
   (runWithTimeout_race_spec 0 50 200 (5, none)).2 (by decide)⟩

/-- C9 counterexample: `ErrTimeout` is an exported package-level value, so
an operation may itself return it. An operation that does so and completes
before the deadline (left run: `fTime = 10 < 50 = timeout`) yields a
caller-visible `(T, error)` pair identical to that of a genuine deadline
expiry (right run: `fTime = 200 > 50`): the two situations are conflated —
the caller cannot distinguish them from the returned values. -/
theorem timeout_sentinel_counterexample :
    (RunWithTimeout (0 : Nat) 50 10 (0, some errTimeout)).1 = (0, some errTimeout) ∧
      (RunWithTimeout (0 : Nat) 50 200 (7, none)).1 = (0, some errTimeout) := by
  constructor
  · decide
  · decide

/-- C9 (amended): `ErrTimeout` is a fixed sentinel error value, and for
every operation whose own error is not the sentinel itself (possible only
because the sentinel is exported), the caller can always distinguish a
deadline expiry from an operation error: the call returns the sentinel iff
the deadline elapsed first. -/
theorem timeout_sentinel_spec {T : Type} (zero : T) (timeout fTime : Int)
    (fRes : T × Option GoErr)
    (hne : fRes.2 ≠ some errTimeout) (hneq : fTime ≠ timeout) :
    ((RunWithTimeout zero timeout fTime fRes).1.2 = some errTimeout ↔ timeout < fTime) := by
  unfold RunWithTimeout selectBranch
  by_cases h : fTime < timeout
  · rw [if_pos h]
    simp only
    constructor
    · intro hc
      exact absurd hc hne
    · intro hc
      omega
  · rw [if_neg h]
    simp only
    constructor
    · intro _
      omega
    · intro _
      trivial

theorem timeout_sentinel_spec_witness :
    ((RunWithTimeout (0 : Nat) 50 10 (5, some (.simple "op failed"))).1.2 = some errTimeout
      ↔ (50 : Int) < 10) :=
  timeout_sentinel_spec 0 50 10 (5, some (.simple "op failed")) (by decide) (by decide)

/-- C3: the supervisor's restart-delay computation agrees, for every
`lastRestartTime` state and every `now`, with the spec's formula (zero
delay when unset or `elapsed ≥ 1 minute`; otherwise
`minInterval − elapsed` when `elapsed < minInterval = 1 second`, zero
otherwise), and the critical section always updates `lastRestartTime` to
`now` — the update happens before the sleep, which `restartStep` models by
yielding the delay still to be slept alongside the already-updated state. -/
theorem go_backoff_spec (lastRestart : Option Int) (now : Int) :
    computeDelay lastRestart now = specDelay lastRestart now ∧
      (restartStep lastRestart now).2 = some now := by
  refine ⟨?_, rfl⟩
  cases lastRestart with
  | none => rfl
  | some t =>
    simp only [computeDelay, specDelay, minuteNs, secondNs, maxRestartsPerMinute]
    norm_num
    split_ifs <;> omega

/-- C4: in every state reachable from the supervisor's initial state (one
execution of the task just launched by `Go`), the number of goroutines
executing the task plus the number in the post-exit handler is at most
one — in particular at most one execution of the task is running at any
moment, and a relaunch (only possible from the handler, i.e. after the
previous execution exited and its backoff elapsed) never overlaps the
previous execution. -/
theorem go_no_overlap_spec (s : Nat × Nat) (h : Relation.ReflTransGen SupStep supInit s) :
    s.1 + s.2 ≤ 1 := by
  induction h with
  | refl => decide
  | tail hab hb ih =>
    cases hb <;> simp_all <;> omega

theorem go_no_overlap_spec_witness : ((1, 0) : Nat × Nat).1 + ((1, 0) : Nat × Nat).2 ≤ 1 :=
  go_no_overlap_spec (1, 0)
    (Relation.ReflTransGen.tail
      (Relation.ReflTransGen.single (SupStep.fault 0 0))
      (SupStep.relaunch 0 0))

/-- C7: run as a deferred exit hook, `RecoverWithErr(outError)`: when a
panic with payload `p` unwinds the function it returns `true` and, when
`outError` is a non-nil pointer, stores in `*outError` an error built from
the stringified payload (`fmt.Errorf("%v", p)`); when `outError` is nil the
assignment is skipped but it still returns `true`; on a normal exit it
returns `false` and leaves `*outError` unchanged. -/
theorem recoverWithErr_spec (p : PanicPayload) (cell : Option GoErr)
    (ptr : Option (Option GoErr)) :
    RecoverWithErr (some cell) (some p) = (true, some (some (.simple p.format))) ∧
      RecoverWithErr none (some p) = (true, none) ∧
      RecoverWithErr ptr none = (false, ptr) :=
  ⟨rfl, rfl, rfl⟩

/-- C8: `DefaultIfPanic(defaultValue, f)` returns `f`'s result when `f`
completes normally, the default when `f` panics, and the default
immediately (without invoking anything) when `f` is nil; nested calls
resolve independently — an outer call sees only the inner call's returned
value, so a panic absorbed by the inner call is invisible outside: with a
panicking inner operation the outer call returns the inner default `d2`,
not the outer default. -/
theorem defaultIfPanic_spec {T : Type} (d d2 v : T) (p : PanicPayload)
    (g2 : Unit → Except PanicPayload T) :
    DefaultIfPanic d (some (fun _ => .ok v)) = v ∧
      DefaultIfPanic d (some (fun _ => .error p)) = d ∧
      DefaultIfPanic d none = d ∧
      DefaultIfPanic d (some (fun _ => .ok (DefaultIfPanic d2 (some g2))))
        = DefaultIfPanic d2 (some g2) ∧
      DefaultIfPanic d (some (fun _ => .ok (DefaultIfPanic d2 (some (fun _ => .error p)))))
        = d2 :=
  ⟨rfl, rfl, rfl, rfl, rfl⟩

/-- C10: neither `Retry` (for `maxAttempts ≥ 1`) nor `RunWithTimeout`
checks the operation for nil before invoking it: both fault with the
nil-function-call runtime panic instead of returning an error, whereas
`Go` treats a nil task as a safe no-op (nothing launched, no fault) and
`DefaultIfPanic` returns the default immediately. -/
theorem nil_operation_spec {T : Type} (zero d : T) (maxAttempts timeout : Int)
    (hpos : 1 ≤ maxAttempts) :
    RetryNilable zero maxAttempts (none : Option (Nat → Except GoErr T))
        = .panicked nilCallMsg ∧
      RunWithTimeoutNilable zero timeout (none : Option (Int × (T × Option GoErr)))
        = .panicked nilCallMsg ∧
      GoLaunch none = .ok false ∧
      DefaultIfPanic d (none : Option (Unit → Except PanicPayload T)) = d := by
  refine ⟨?_, rfl, rfl, rfl⟩
  unfold RetryNilable
  have h1 : maxAttempts.toNat = maxAttempts.toNat - 1 + 1 := by omega
  rw [h1]
  rfl

theorem nil_operation_spec_witness :
    RetryNilable (0 : Nat) 1 (none : Option (Nat → Except GoErr Nat))
        = .panicked nilCallMsg ∧
      RunWithTimeoutNilable (0 : Nat) 50 (none : Option (Int × (Nat × Option GoErr)))
        = .panicked nilCallMsg ∧
      GoLaunch none = .ok false ∧
      DefaultIfPanic (9 : Nat) (none : Option (Unit → Except PanicPayload Nat)) = 9 :=
  nil_operation_spec 0 9 1 50 (by decide)

end Lang
